import Mathlib

/-!
Verification development for the FAN automatic test pattern generator
(fyerfyer/FAN-algorithm).  The Go sources are shallowly embedded: signals
and gates live in arena-style lists and are referred to by index, mutation
becomes functional update, and the unbounded search loops take explicit
fuel (returning none when the fuel runs out, so a some-result is exactly a
run the Go program also performs).
-/

namespace FANCheck

/-- The five-valued algebra of signal.go: 0, 1, D, D-bar, X. -/
inductive SignalValue where
  | ZERO
  | ONE
  | D
  | D_BAR
  | X
deriving DecidableEq, Repr

/-- Gate types of gate.go. -/
inductive GateType where
  | AND
  | OR
  | NOT
deriving DecidableEq, Repr

/-- A gate (gate.go): type, ordered input signal indices, output signal index.
The ID and the circuit back-pointer carry no behaviour and are dropped. -/
structure Gate where
  typ : GateType
  inputs : List Nat
  output : Nat
deriving DecidableEq, Repr

/-- A signal (signal.go).  The struct keeps BOTH value cells of the source:
State.Value (written only at construction) and the separate Value field
(written by SetValue); the divergence between the two is behaviour of the
program, so the embedding keeps it.  The ID is replaced by the index. -/
structure Signal where
  stateValue : SignalValue
  isBound : Bool
  isHead : Bool
  isPrimary : Bool
  fanouts : List Nat
  fanIn : Option Nat
  controllability : Nat
  isFault : Bool
  faultType : SignalValue
  value : SignalValue
deriving DecidableEq, Repr

/-- NewSignal: State.Value starts at X; the Value field is never mentioned
in the Go composite literal, so it takes the Go zero value ZERO. -/
def newSignal : Signal :=
  { stateValue := .X
    isBound := false
    isHead := false
    isPrimary := false
    fanouts := []
    fanIn := none
    controllability := 0
    isFault := false
    faultType := .ZERO
    value := .ZERO }

namespace Signal

/-- Signal.SetValue: keeps a faulty value, otherwise writes the Value field
(the early return when the value is unchanged writes the same result). -/
def SetValue (s : Signal) (v : SignalValue) : Signal :=
  if s.isFault then s else { s with value := v }

/-- Signal.GetValue: a fault marker reads back as D (stuck-at-0) or D-bar
(stuck-at-1); otherwise the Value field is read. -/
def GetValue (s : Signal) : SignalValue :=
  if s.isFault then (if s.faultType = .ZERO then .D else .D_BAR) else s.value

/-- Signal.IsUnknown reads State.Value, not the Value field. -/
def IsUnknown (s : Signal) : Bool :=
  s.stateValue = .X

/-- Signal.IsFaulty: the read-back value is D or D-bar. -/
def IsFaulty (s : Signal) : Bool :=
  s.GetValue = .D || s.GetValue = .D_BAR

/-- Signal.IsFanoutPoint: more than one fanout destination. -/
def IsFanoutPoint (s : Signal) : Bool :=
  s.fanouts.length > 1

/-- Signal.IsCompatible (signal.go lines 119-144).  Note that every branch
reads State.Value, not the value read back by GetValue. -/
def IsCompatible (s : Signal) (newValue : SignalValue) : Bool :=
  if s.stateValue = .X then true
  else if newValue = .X then true
  else
    match s.stateValue with
    | .ZERO => newValue = .ZERO || newValue = .D_BAR
    | .ONE => newValue = .ONE || newValue = .D
    | .D => newValue = .ONE || newValue = .D
    | .D_BAR => newValue = .ZERO || newValue = .D_BAR
    | .X => false

end Signal

/-- The compatibility relation exactly as the specification states it: a
signal currently at v accepts w iff v = X, or w = X, or (v,w) is one of the
eight listed agreeing pairs.  Stated from the spec for comparison with
Signal.IsCompatible. -/
def claimedCompatible (v w : SignalValue) : Bool :=
  v = .X || w = .X ||
    ((v = .ZERO && w = .ZERO) || (v = .ZERO && w = .D_BAR) ||
     (v = .ONE && w = .ONE) || (v = .ONE && w = .D) ||
     (v = .D && w = .ONE) || (v = .D && w = .D) ||
     (v = .D_BAR && w = .ZERO) || (v = .D_BAR && w = .D_BAR))

/-! ### Gate evaluation, algorithm package (fan.go lines 369-459)

The fan.go evaluators read the raw Value field of each input, collect four
presence flags in a loop, and then decide by a priority chain. -/

/-- One step of the flag-collecting loop of evaluateANDGate; the flag tuple
is (hasX, hasZero, hasD, hasDBARR). -/
def andFlagsStep (fl : Bool × Bool × Bool × Bool) (v : SignalValue) :
    Bool × Bool × Bool × Bool :=
  match v with
  | .X => (true, fl.2.1, fl.2.2.1, fl.2.2.2)
  | .ZERO => (fl.1, true, fl.2.2.1, fl.2.2.2)
  | .D => (fl.1, fl.2.1, true, fl.2.2.2)
  | .D_BAR => (fl.1, fl.2.1, fl.2.2.1, true)
  | .ONE => fl

/-- The flag-collecting loop of evaluateANDGate. -/
def andFlags (vals : List SignalValue) : Bool × Bool × Bool × Bool :=
  vals.foldl andFlagsStep (false, false, false, false)

/-- evaluateANDGate (fan.go): zero dominates, then X, then the D/D-bar rules. -/
def evaluateANDGate (vals : List SignalValue) : SignalValue :=
  let fl := andFlags vals
  if fl.2.1 then .ZERO
  else if fl.1 then .X
  else if fl.2.2.1 && fl.2.2.2 then .ZERO
  else if fl.2.2.1 then .D
  else if fl.2.2.2 then .D_BAR
  else .ONE

/-- One step of the flag-collecting loop of evaluateORGate; the flag tuple
is (hasX, hasOne, hasD, hasDBARR). -/
def orFlagsStep (fl : Bool × Bool × Bool × Bool) (v : SignalValue) :
    Bool × Bool × Bool × Bool :=
  match v with
  | .X => (true, fl.2.1, fl.2.2.1, fl.2.2.2)
  | .ONE => (fl.1, true, fl.2.2.1, fl.2.2.2)
  | .D => (fl.1, fl.2.1, true, fl.2.2.2)
  | .D_BAR => (fl.1, fl.2.1, fl.2.2.1, true)
  | .ZERO => fl

/-- The flag-collecting loop of evaluateORGate. -/
def orFlags (vals : List SignalValue) : Bool × Bool × Bool × Bool :=
  vals.foldl orFlagsStep (false, false, false, false)

/-- evaluateORGate (fan.go): one dominates, then X, then the D/D-bar rules. -/
def evaluateORGate (vals : List SignalValue) : SignalValue :=
  let fl := orFlags vals
  if fl.2.1 then .ONE
  else if fl.1 then .X
  else if fl.2.2.1 && fl.2.2.2 then .ONE
  else if fl.2.2.1 then .D
  else if fl.2.2.2 then .D_BAR
  else .ZERO

/-- evaluateNOTGate (fan.go): inversion with D and D-bar swapped. -/
def evaluateNOTGate (v : SignalValue) : SignalValue :=
  match v with
  | .X => .X
  | .ZERO => .ONE
  | .ONE => .ZERO
  | .D => .D_BAR
  | .D_BAR => .D

/-! ### Gate evaluation, circuit package (gate.go lines 57-143, and the
identical older copy in circuit.go)

These evaluators read GetValue of each input and return ZERO (resp. ONE)
as soon as a ZERO or a D-bar (resp. a ONE or a D) is seen. -/

/-- The scanning loop of circuit.Gate evaluateAND, carrying the hasX and
hasD flags; an input equal to ZERO or to D_BAR returns ZERO at once. -/
def gateEvaluateANDAux : List SignalValue → Bool → Bool → SignalValue
  | [], hasX, hasD => if hasX then .X else if hasD then .D else .ONE
  | v :: rest, hasX, hasD =>
    if v = .ZERO then .ZERO
    else if v = .D_BAR then .ZERO
    else gateEvaluateANDAux rest (hasX || v = .X) (hasD || v = .D)

/-- circuit.Gate evaluateAND. -/
def gateEvaluateAND (vals : List SignalValue) : SignalValue :=
  gateEvaluateANDAux vals false false

/-- The scanning loop of circuit.Gate evaluateOR; an input equal to ONE or
to D returns ONE at once. -/
def gateEvaluateORAux : List SignalValue → Bool → Bool → SignalValue
  | [], hasX, hasDBar => if hasX then .X else if hasDBar then .D_BAR else .ZERO
  | v :: rest, hasX, hasDBar =>
    if v = .ONE then .ONE
    else if v = .D then .ONE
    else gateEvaluateORAux rest (hasX || v = .X) (hasDBar || v = .D_BAR)

/-- circuit.Gate evaluateOR. -/
def gateEvaluateOR (vals : List SignalValue) : SignalValue :=
  gateEvaluateORAux vals false false

/-- circuit.Gate evaluateNOT (same table as the fan.go version). -/
def gateEvaluateNOT (v : SignalValue) : SignalValue :=
  match v with
  | .ZERO => .ONE
  | .ONE => .ZERO
  | .D => .D_BAR
  | .D_BAR => .D
  | .X => .X

/-- AND evaluation exactly as the claim words it: 0 if any input is 0,
else X if any is X, else 0 if both D and D-bar appear, else D if any D,
else D-bar if any D-bar, else 1.  Stated from the spec for comparison. -/
def specEvaluateAND (vals : List SignalValue) : SignalValue :=
  if vals.contains .ZERO then .ZERO
  else if vals.contains .X then .X
  else if vals.contains .D && vals.contains .D_BAR then .ZERO
  else if vals.contains .D then .D
  else if vals.contains .D_BAR then .D_BAR
  else .ONE

/-- The rule the circuit-package AND evaluator actually implements: D-bar is
treated as a controlling zero. -/
def gateSpecAND (vals : List SignalValue) : SignalValue :=
  if vals.contains .ZERO || vals.contains .D_BAR then .ZERO
  else if vals.contains .X then .X
  else if vals.contains .D then .D
  else .ONE

/-! ### The circuit graph (circuit.go) -/

/-- The circuit (circuit.go): arena of gates and signals; primary inputs,
primary outputs and head lines are lists of signal indices. -/
structure Circuit where
  gates : List Gate
  signals : List Signal
  primaryInputs : List Nat
  primaryOutputs : List Nat
  headLines : List Nat
deriving DecidableEq, Repr

/-- Pointer dereference of a signal; out-of-range indices (a nil pointer in
Go) read as a fresh signal so that the functions stay total. -/
def getSignal (c : Circuit) (i : Nat) : Signal :=
  c.signals.getD i newSignal

/-- Pointer dereference of a gate. -/
def getGate (c : Circuit) (i : Nat) : Gate :=
  c.gates.getD i { typ := .AND, inputs := [], output := 0 }

/-- In-place update of one signal. -/
def setSignal (c : Circuit) (i : Nat) (f : Signal → Signal) : Circuit :=
  { c with signals := c.signals.set i (f (getSignal c i)) }

/-! ### D-frontier (fan.go lines 109-134, helper.go lines 37-62) -/

/-- isDFrontierGate (fan.go): some input's Value field is D or D-bar, some
input's Value field is X, and the output does not read back as faulty. -/
def isDFrontierGate (c : Circuit) (g : Gate) : Bool :=
  let hasFaultyInput := g.inputs.any fun i =>
    (getSignal c i).value = .D || (getSignal c i).value = .D_BAR
  let hasUnassignedInput := g.inputs.any fun i => (getSignal c i).value = .X
  hasFaultyInput && hasUnassignedInput && !(getSignal c g.output).IsFaulty

/-- findDFrontier (fan.go): all gates passing isDFrontierGate, in order. -/
def findDFrontier (c : Circuit) : List Gate :=
  c.gates.filter (isDFrontierGate c)

/-- utils.FindDFrontier (helper.go): a gate with a faulty input (first one
recorded) and a non-faulty output; no X-input requirement. -/
def utilsFindDFrontier (c : Circuit) : List (Gate × Nat) :=
  c.gates.filterMap fun g =>
    match g.inputs.find? (fun i => (getSignal c i).IsFaulty) with
    | some fi => if (getSignal c g.output).IsFaulty then none else some (g, fi)
    | none => none

/-! ### Completion check (fan.go lines 190-199, 493-500) -/

/-- allNecessaryAssignmentsMade: no non-primary signal still has Value X. -/
def allNecessaryAssignmentsMade (c : Circuit) : Bool :=
  c.signals.all fun s => !(s.value = .X && !s.isPrimary)

/-- isTestComplete: some primary output holds D or D-bar, or the D-frontier
is empty and all necessary assignments are made. -/
def isTestComplete (c : Circuit) (dFrontier : List Gate) : Bool :=
  (c.primaryOutputs.any fun i =>
    (getSignal c i).value = .D || (getSignal c i).value = .D_BAR) ||
  (dFrontier.length = 0 && allNecessaryAssignmentsMade c)

/-- One gate's entry in utils.FindDFrontier, when present. -/
def utilsDFEntry (c : Circuit) (g : Gate) : Option (Gate × Nat) :=
  match g.inputs.find? (fun i => (getSignal c i).IsFaulty) with
  | some fi => if (getSignal c g.output).IsFaulty then none else some (g, fi)
  | none => none

/-! ### Backtrace objectives (types.go, fan.go lines 478-491) -/

/-- types.BacktraceObjective; the Dependencies list is never populated and
is dropped.  Priorities and costs are Go ints. -/
structure BacktraceObjective where
  signal : Nat
  value : SignalValue
  zeroCount : Nat
  oneCount : Nat
  priority : Int
  cost : Int
deriving DecidableEq, Repr

/-- createObjectives (fan.go): one objective per D-frontier gate, at the
gate output, value 1, priority 10, one-count 1 (cost left at zero). -/
def createObjectives (c : Circuit) (dFrontier : List Gate) : List BacktraceObjective :=
  dFrontier.map fun g =>
    { signal := g.output, value := .ONE, zeroCount := 0, oneCount := 1,
      priority := 10, cost := 0 }

/-- A dead-end state: the only primary output holds 1, one non-primary
signal is still X, and there are no gates (so the D-frontier is empty). -/
def c2DeadEnd : Circuit :=
  { gates := []
    signals := [{ newSignal with isPrimary := true, value := .ONE },
      { newSignal with value := .X }]
    primaryInputs := [], primaryOutputs := [0], headLines := [] }

/-! ### Configuration (types.go lines 126-223) -/

/-- types.TestGenerationConfig; the two strategy enums carry no behaviour
in the embedded code and are dropped; the time limit is kept in seconds. -/
structure TestGenerationConfig where
  maxDecisions : Nat
  maxBacktracks : Nat
  useUniqueSensitization : Bool
  useDynamicBacktrace : Bool
  timeLimitSeconds : Nat
deriving DecidableEq, Repr

/-- NewTestGenerationConfig: 1000 decisions, 1000 backtracks, both flags
on, five minutes. -/
def NewTestGenerationConfig : TestGenerationConfig :=
  { maxDecisions := 1000, maxBacktracks := 1000,
    useUniqueSensitization := true, useDynamicBacktrace := true,
    timeLimitSeconds := 300 }

/-- The Go zero value of a BacktraceObjective (never observed by the
embedded control flow; used only to make list head access total). -/
def defaultObjective : BacktraceObjective :=
  { signal := 0, value := .ZERO, zeroCount := 0, oneCount := 0,
    priority := 0, cost := 0 }

/-- types.calculateObjectivePriority: +10 primary, +5 head, -3 fanout
point (the value argument of the Go function is unused). -/
def calculateObjectivePriority (c : Circuit) (si : Nat) : Int :=
  (if (getSignal c si).isPrimary then (10 : Int) else 0) +
    (if (getSignal c si).isHead then 5 else 0) +
    (if (getSignal c si).IsFanoutPoint then -3 else 0)

/-- types.estimateObjectiveCost: controllability plus twice the driving
gate's fan-in. -/
def estimateObjectiveCost (c : Circuit) (si : Nat) : Int :=
  ((getSignal c si).controllability : Int) +
    (match (getSignal c si).fanIn with
     | some gi => 2 * ((getGate c gi).inputs.length : Int)
     | none => 0)

/-- types.CreateObjective: counts start at zero; the objective type tag is
not stored in the Go struct. -/
def CreateObjective (c : Circuit) (si : Nat) (v : SignalValue) : BacktraceObjective :=
  { signal := si, value := v, zeroCount := 0, oneCount := 0,
    priority := calculateObjectivePriority c si,
    cost := estimateObjectiveCost c si }

/-! ### Multiple backtrace (backtrace.go, third revision in part_007) -/

/-- findEasiestToControl: the source returns the first input. -/
def findEasiestToControl (g : Gate) : Nat :=
  g.inputs.headD 0

/-- backtraceANDGateEnhanced: a zero-count objective descends to the
easiest-to-control input with value 0; a one-count objective fans out to
every input with value 1. -/
def backtraceANDGateEnhanced (c : Circuit) (g : Gate) (obj : BacktraceObjective) :
    List BacktraceObjective :=
  (if obj.zeroCount > 0 then
    [{ CreateObjective c (findEasiestToControl g) .ZERO with zeroCount := obj.zeroCount }]
   else []) ++
  (if obj.oneCount > 0 then
    g.inputs.map fun i => { CreateObjective c i .ONE with oneCount := obj.oneCount }
   else [])

/-- backtraceORGateEnhanced: mirror image of the AND case. -/
def backtraceORGateEnhanced (c : Circuit) (g : Gate) (obj : BacktraceObjective) :
    List BacktraceObjective :=
  (if obj.oneCount > 0 then
    [{ CreateObjective c (findEasiestToControl g) .ONE with oneCount := obj.oneCount }]
   else []) ++
  (if obj.zeroCount > 0 then
    g.inputs.map fun i => { CreateObjective c i .ZERO with zeroCount := obj.zeroCount }
   else [])

/-- backtraceNOTGateEnhanced: swap the zero-count and one-count. -/
def backtraceNOTGateEnhanced (c : Circuit) (g : Gate) (obj : BacktraceObjective) :
    List BacktraceObjective :=
  (if obj.zeroCount > 0 then
    [{ CreateObjective c (g.inputs.headD 0) .ONE with oneCount := obj.zeroCount }]
   else []) ++
  (if obj.oneCount > 0 then
    [{ CreateObjective c (g.inputs.headD 0) .ZERO with zeroCount := obj.oneCount }]
   else [])

/-- backtraceGateWithCost: dispatch on the gate type. -/
def backtraceGateWithCost (c : Circuit) (g : Gate) (obj : BacktraceObjective) :
    List BacktraceObjective :=
  match g.typ with
  | .AND => backtraceANDGateEnhanced c g obj
  | .OR => backtraceORGateEnhanced c g obj
  | .NOT => backtraceNOTGateEnhanced c g obj

/-- The comparison closure handed to sort.Slice by
sortObjectivesByPriorityAndCost: higher priority first, then lower cost. -/
def objLess (a b : BacktraceObjective) : Bool :=
  if a.priority ≠ b.priority then a.priority > b.priority else a.cost < b.cost

/-- Insertion step used to model sort.Slice: an element is placed before
the first element that does not strictly precede it. -/
def insertObjSorted (a : BacktraceObjective) : List BacktraceObjective →
    List BacktraceObjective
  | [] => [a]
  | b :: t => if objLess b a then b :: insertObjSorted a t else a :: b :: t

/-- sortObjectivesByPriorityAndCost: sorting with the objLess comparator
(sort.Slice promises a result ordered by the comparator; the embedding
realises it as an insertion sort). -/
def sortObjectivesByPriorityAndCost (l : List BacktraceObjective) :
    List BacktraceObjective :=
  l.foldr insertObjSorted []

/-- The GetPathsToOutputs DFS (signal.go lines 204-229).  The source keeps
one visited set for the whole traversal but clears the current signal
before each fanout descent; the recursion is fuelled because the source
recursion is not structurally bounded.  Returns (visited, collected
paths). -/
def gpoVisit (c : Circuit) : Nat → Nat → List Nat → List Nat → List (List Nat) →
    Option (List Nat × List (List Nat))
  | 0, _, _, _, _ => none
  | fuel + 1, curr, path, visited, paths =>
    if visited.contains curr then some (visited, paths)
    else
      let visited2 := curr :: visited
      let newPath := path ++ [curr]
      if (getSignal c curr).isPrimary && (getSignal c curr).fanouts.length = 0 then
        some (visited2, paths ++ [newPath])
      else
        (getSignal c curr).fanouts.foldl
          (fun acc f =>
            match acc with
            | none => none
            | some (vis, ps) => gpoVisit c fuel f newPath (vis.erase curr) ps)
          (some (visited2, paths))

/-- Signal.GetPathsToOutputs, fuelled. -/
def GetPathsToOutputs (fuel : Nat) (c : Circuit) (s : Nat) :
    Option (List (List Nat)) :=
  match gpoVisit c fuel s [] [] [] with
  | none => none
  | some (_, paths) => some paths

/-- Circuit.FindMandatoryPaths: signals present in every path from the
given signal to a primary output.  The Go loop iterates a pointer-keyed
map in unspecified order; the embedding fixes the order of the first
path. -/
def FindMandatoryPaths (fuel : Nat) (c : Circuit) (s : Nat) : Option (List Nat) :=
  match GetPathsToOutputs fuel c s with
  | none => none
  | some paths =>
    if paths.length = 0 then some []
    else some (((paths.headD []).dedup).filter fun x =>
      paths.all fun p => p.contains x)

/-- The accumulator of the MultipleBacktrace worklist loop: processed
signal set, next worklist, final objectives, head lines, and the
BacktraceCount statistic. -/
structure MBState where
  processed : List Nat
  next : List BacktraceObjective
  finals : List BacktraceObjective
  heads : List Nat
  count : Nat
deriving DecidableEq, Repr

/-- One objective of the MultipleBacktrace loop body: skip if processed,
emit as final if on a head line, otherwise descend through the driving
gate; an unprocessed objective on a non-head signal without a driver is
dropped. -/
def mbProcessObj (c : Circuit) (st : MBState) (obj : BacktraceObjective) : MBState :=
  if st.processed.contains obj.signal then st
  else
    let processed := obj.signal :: st.processed
    let count := st.count + 1
    if (getSignal c obj.signal).isHead then
      { st with
        processed := processed
        count := count
        finals := st.finals ++ [obj]
        heads := st.heads ++ [obj.signal] }
    else
      match (getSignal c obj.signal).fanIn with
      | some gi =>
        { st with
          processed := processed
          count := count
          next := st.next ++ backtraceGateWithCost c (getGate c gi) obj }
      | none => { st with processed := processed, count := count }

/-- One pass over the current worklist. -/
def mbIter (c : Circuit) (cur : List BacktraceObjective) (st : MBState) : MBState :=
  cur.foldl (mbProcessObj c) st

/-- The MultipleBacktrace worklist loop, fuelled by the number of outer
iterations (the source loop first tests whether the worklist is empty). -/
def mbLoop (c : Circuit) (fuel : Nat) (cur : List BacktraceObjective)
    (st : MBState) : Option MBState :=
  match cur with
  | [] => some st
  | o :: rest =>
    match fuel with
    | 0 => none
    | fuel + 1 =>
      let st2 := mbIter c (o :: rest) { st with next := [] }
      mbLoop c fuel st2.next { st2 with next := [] }

/-- The result record of MultipleBacktrace (the Stats and Error fields
that never influence behaviour are reduced to the BacktraceCount). -/
structure BacktraceResult where
  finalObjectives : List BacktraceObjective
  headLines : List Nat
  backtraceCount : Nat
deriving DecidableEq, Repr

/-- MultipleBacktrace (third revision): the unique-sensitization entry
branch (dynamic backtrace on, a single initial objective whose signal
reads back faulty, and a non-empty mandatory-path set) returns the
mandatory-path objectives unsorted; otherwise the worklist loop runs and
the collected final objectives are sorted by priority then cost. -/
def MultipleBacktrace (fuel : Nat) (initialObjectives : List BacktraceObjective)
    (c : Circuit) (config : TestGenerationConfig) : Option BacktraceResult :=
  let runLoop : Option BacktraceResult :=
    match mbLoop c fuel initialObjectives
        { processed := [], next := [], finals := [], heads := [], count := 0 } with
    | none => none
    | some st =>
      some { finalObjectives := sortObjectivesByPriorityAndCost st.finals,
             headLines := st.heads, backtraceCount := st.count }
  if config.useDynamicBacktrace && initialObjectives.length = 1 &&
      (getSignal c (initialObjectives.headD defaultObjective).signal).IsFaulty then
    match FindMandatoryPaths fuel c (initialObjectives.headD defaultObjective).signal with
    | none => none
    | some paths =>
      if paths.length > 0 then
        some { finalObjectives :=
                 paths.map fun s => { CreateObjective c s .ONE with priority := 10 }
               headLines := []
               backtraceCount := 0 }
      else runLoop
  else runLoop

/-- A one-signal circuit: a single primary input that is not a head line,
at value X. -/
def loneInputCircuit : Circuit :=
  { gates := []
    signals := [{ newSignal with isPrimary := true, value := .X }]
    primaryInputs := [0], primaryOutputs := [], headLines := [] }

/-- The propagation objective the driver would build for that signal. -/
def loneInputObjective : BacktraceObjective :=
  { signal := 0, value := .ONE, zeroCount := 0, oneCount := 1,
    priority := 10, cost := 0 }

/-- A small circuit with one head line: two primary inputs driving an AND
gate whose output (index 2) is a head line. -/
def headLineCircuit : Circuit :=
  { gates := [{ typ := .AND, inputs := [0, 1], output := 2 }]
    signals :=
      [{ newSignal with isPrimary := true, fanouts := [2], value := .X },
       { newSignal with isPrimary := true, fanouts := [2], value := .X },
       { newSignal with isHead := true, fanIn := some 0, value := .X }]
    primaryInputs := [0, 1], primaryOutputs := [], headLines := [2] }

/-- An objective sitting directly on the head line of headLineCircuit. -/
def headLineObjective : BacktraceObjective :=
  { signal := 2, value := .ONE, zeroCount := 0, oneCount := 1,
    priority := 10, cost := 0 }

/-! ### The circuit-package gate evaluator (gate.go Evaluate) -/

/-- circuit.Gate evaluate: dispatch to the GetValue-based evaluators (a
NOT gate reads its first input; the source would panic on an empty input
list, modelled by X). -/
def gateEvalValue (c : Circuit) (g : Gate) : SignalValue :=
  match g.typ with
  | .AND => gateEvaluateAND (g.inputs.map fun i => (getSignal c i).GetValue)
  | .OR => gateEvaluateOR (g.inputs.map fun i => (getSignal c i).GetValue)
  | .NOT => gateEvaluateNOT ((g.inputs.map fun i => (getSignal c i).GetValue).headD .X)

/-- circuit.Gate Evaluate: write the evaluated value through SetValue and
report whether the read-back value changed. -/
def gateEvaluate (c : Circuit) (gi : Nat) : Circuit × Bool :=
  let g := getGate c gi
  let old := (getSignal c g.output).GetValue
  let newVal := gateEvalValue c g
  let c2 := setSignal c g.output (fun s => s.SetValue newVal)
  (c2, decide (old ≠ (getSignal c2 g.output).GetValue))

/-! ### The types-based implication engine (implication.go, second revision
in part_007, the one the fan.go driver calls) -/

/-- The inner loop of the types-based backwardImplicateAND and
backwardImplicateOR: queue value v for every input whose IsUnknown test
passes, checking compatibility against the POPPED signal sidx (as the
source does); none signals an inconsistency. -/
def typesCollect (c : Circuit) (sidx : Nat) (v : SignalValue) :
    List Nat → Option (List (Nat × SignalValue))
  | [] => some []
  | i :: rest =>
    if (getSignal c i).IsUnknown then
      if (getSignal c sidx).IsCompatible v then
        match typesCollect c sidx v rest with
        | none => none
        | some l => some ((i, v) :: l)
      else none
    else typesCollect c sidx v rest

/-- backwardImplicateAND (types revision): only an output reading back 1
drives anything; there is no rule for output 0. -/
def typesBackwardImplicateAND (c : Circuit) (g : Gate) (sidx : Nat) :
    Option (List (Nat × SignalValue)) :=
  if (getSignal c g.output).GetValue = .ONE then
    typesCollect c sidx .ONE g.inputs
  else some []

/-- backwardImplicateOR (types revision): only an output reading back 0
drives anything; there is no rule for output 1. -/
def typesBackwardImplicateOR (c : Circuit) (g : Gate) (sidx : Nat) :
    Option (List (Nat × SignalValue)) :=
  if (getSignal c g.output).GetValue = .ZERO then
    typesCollect c sidx .ZERO g.inputs
  else some []

/-- backwardImplicateNOT (types revision): invert a 0 or 1 output into an
unknown input; D and D-bar outputs drive nothing here. -/
def typesBackwardImplicateNOT (c : Circuit) (g : Gate) (sidx : Nat) :
    Option (List (Nat × SignalValue)) :=
  let input := g.inputs.headD 0
  if (getSignal c input).IsUnknown then
    match (getSignal c g.output).GetValue with
    | .ZERO =>
      if (getSignal c sidx).IsCompatible .ONE then some [(input, .ONE)] else none
    | .ONE =>
      if (getSignal c sidx).IsCompatible .ZERO then some [(input, .ZERO)] else none
    | _ => some []
  else some []

/-- backwardImplicate (types revision): dispatch through the driving gate. -/
def typesBackwardImplicate (c : Circuit) (sidx : Nat) :
    Option (List (Nat × SignalValue)) :=
  match (getSignal c sidx).fanIn with
  | none => some []
  | some gi =>
    let g := getGate c gi
    match g.typ with
    | .AND => typesBackwardImplicateAND c g sidx
    | .OR => typesBackwardImplicateOR c g sidx
    | .NOT => typesBackwardImplicateNOT c g sidx

/-- forwardImplicate (types revision): re-evaluate the driving gate of
each fanout destination; a changed output is checked for compatibility
against the POPPED signal (as the source does) and queued.  Returns the
mutated circuit, the success flag, and the queued assignments; on failure
the mutations made so far are kept, as in the source. -/
def typesForwardImplicateAux (sidx : Nat) :
    List Nat → Circuit → List (Nat × SignalValue) →
    Circuit × Bool × List (Nat × SignalValue)
  | [], c, acc => (c, true, acc)
  | f :: rest, c, acc =>
    match (getSignal c f).fanIn with
    | none => typesForwardImplicateAux sidx rest c acc
    | some gi =>
      let p := gateEvaluate c gi
      if p.2 then
        let out := (getGate p.1 gi).output
        let newValue := (getSignal p.1 out).GetValue
        if (getSignal p.1 sidx).IsCompatible newValue then
          typesForwardImplicateAux sidx rest p.1 (acc ++ [(out, newValue)])
        else (p.1, false, acc)
      else typesForwardImplicateAux sidx rest p.1 acc

/-- forwardImplicate entry point. -/
def typesForwardImplicate (c : Circuit) (sidx : Nat) :
    Circuit × Bool × List (Nat × SignalValue) :=
  typesForwardImplicateAux sidx (getSignal c sidx).fanouts c []

/-- The queue loop of the types-based Implication; fuel bounds the number
of pops.  Returns (circuit, success, recorded implications). -/
def typesImplicationLoop (c : Circuit) :
    Nat → List (Nat × SignalValue) → List Nat → List (Nat × SignalValue) →
    Option (Circuit × Bool × List (Nat × SignalValue))
  | _, [], processed, impls => some (c, true, impls)
  | 0, _ :: _, _, _ => none
  | fuel + 1, (sidx, v) :: rest, processed, impls =>
    if processed.contains sidx then
      typesImplicationLoop c fuel rest processed impls
    else
      let processed2 := sidx :: processed
      let fw := typesForwardImplicate c sidx
      if !fw.2.1 then some (fw.1, false, impls ++ fw.2.2)
      else
        match typesBackwardImplicate fw.1 sidx with
        | none => some (fw.1, false, impls ++ fw.2.2)
        | some adds =>
          typesImplicationLoop fw.1 fuel (rest ++ fw.2.2 ++ adds) processed2
            (impls ++ fw.2.2 ++ adds)

/-- Implication (types revision): seed the queue with the assignment
(already applied to the circuit by the caller) and run to exhaustion. -/
def Implication (fuel : Nat) (c : Circuit) (sidx : Nat) (v : SignalValue) :
    Option (Circuit × Bool × List (Nat × SignalValue)) :=
  typesImplicationLoop c fuel [(sidx, v)] [] [(sidx, v)]

/-! ### The utils-based backward rules (implication.go, first revision in
part_007): the only place the all-but-one rule appears -/

/-- utils.GetUnassignedInputs: inputs whose IsUnknown test passes (the
test reads State.Value). -/
def GetUnassignedInputs (c : Circuit) (g : Gate) : List Nat :=
  g.inputs.filter fun i => (getSignal c i).IsUnknown

/-- The inner loop of the utils-based backwardImplicateAND/OR rules for a
fully-determined output: queue v for unknown inputs, checking the INPUT's
own compatibility (CheckImplicationConsistency). -/
def utilsCollect (c : Circuit) (v : SignalValue) :
    List Nat → Option (List (Nat × SignalValue))
  | [] => some []
  | i :: rest =>
    if (getSignal c i).IsUnknown then
      if (getSignal c i).IsCompatible v then
        match utilsCollect c v rest with
        | none => none
        | some l => some ((i, v) :: l)
      else none
    else utilsCollect c v rest

/-- backwardImplicateAND (utils revision): output 1 forces every unknown
input to 1; output 0 with all but one input at 1 and exactly one
IsUnknown input forces that input to 0. -/
def utilsBackwardImplicateAND (c : Circuit) (g : Gate) :
    Option (List (Nat × SignalValue)) :=
  if (getSignal c g.output).GetValue = .ONE then
    utilsCollect c .ONE g.inputs
  else if (getSignal c g.output).GetValue = .ZERO then
    let unknowns := GetUnassignedInputs c g
    let ones := (g.inputs.filter fun i => (getSignal c i).GetValue = .ONE).length
    if ones = g.inputs.length - 1 && unknowns.length = 1 then
      let u := unknowns.headD 0
      if (getSignal c u).IsCompatible .ZERO then some [(u, .ZERO)] else none
    else some []
  else some []

/-- backwardImplicateOR (utils revision): mirror image of the AND case. -/
def utilsBackwardImplicateOR (c : Circuit) (g : Gate) :
    Option (List (Nat × SignalValue)) :=
  if (getSignal c g.output).GetValue = .ZERO then
    utilsCollect c .ZERO g.inputs
  else if (getSignal c g.output).GetValue = .ONE then
    let unknowns := GetUnassignedInputs c g
    let zeros := (g.inputs.filter fun i => (getSignal c i).GetValue = .ZERO).length
    if zeros = g.inputs.length - 1 && unknowns.length = 1 then
      let u := unknowns.headD 0
      if (getSignal c u).IsCompatible .ONE then some [(u, .ONE)] else none
    else some []
  else some []

/-! ### The fan.go implication pass (performImplication, lines 336-354) -/

/-- evaluateGate (fan.go): dispatch to the raw-Value evaluators. -/
def evaluateGate (c : Circuit) (g : Gate) : SignalValue :=
  match g.typ with
  | .AND => evaluateANDGate (g.inputs.map fun i => (getSignal c i).value)
  | .OR => evaluateORGate (g.inputs.map fun i => (getSignal c i).value)
  | .NOT => evaluateNOTGate ((g.inputs.map fun i => (getSignal c i).value).headD .X)

/-- One pass of performImplication over the gate list: re-evaluate each
gate; a changed output is checked with IsCompatible and then written
DIRECTLY to the Value field (bypassing SetValue); failure aborts the pass.
Returns (circuit, changed, ok). -/
def implicationPass : Circuit → List Gate → Bool → Circuit × Bool × Bool
  | c, [], changed => (c, changed, true)
  | c, g :: rest, changed =>
    let oldValue := (getSignal c g.output).value
    let newValue := evaluateGate c g
    if oldValue = newValue then implicationPass c rest changed
    else if (getSignal c g.output).IsCompatible newValue then
      implicationPass (setSignal c g.output fun s => { s with value := newValue })
        rest true
    else (c, changed, false)

/-- performImplication (fan.go): repeat passes until a pass changes
nothing; none when the fuel runs out, some (c, ok) otherwise. -/
def performImplication (fuel : Nat) (c : Circuit) : Option (Circuit × Bool) :=
  match fuel with
  | 0 => none
  | fuel + 1 =>
    let p := implicationPass c c.gates false
    if !p.2.2 then some (p.1, false)
    else if p.2.1 then performImplication fuel p.1
    else some (p.1, true)

/-! ### Unique-sensitization path search (sensitization package) and the
fan.go D-frontier conversion -/

/-- PathFinder.FindUniqueSensitizationPaths DFS over gates (no visited
set in the source); fuelled.  The path scores carry no behaviour in the
callers (only emptiness is tested) and are not computed. -/
def fusVisit (c : Circuit) : Nat → Gate → List Gate → List (List Gate) →
    Option (List (List Gate))
  | 0, _, _, _ => none
  | fuel + 1, g, path, paths =>
    let newPath := path ++ [g]
    if (getSignal c g.output).isPrimary then some (paths ++ [newPath])
    else
      (getSignal c g.output).fanouts.foldl
        (fun acc f =>
          match acc with
          | none => none
          | some ps =>
            match (getSignal c f).fanIn with
            | none => some ps
            | some gi => fusVisit c fuel (getGate c gi) newPath ps)
        (some paths)

/-- FindUniqueSensitizationPaths: only a singleton D-frontier is searched. -/
def FindUniqueSensitizationPaths (fuel : Nat) (c : Circuit) (dFrontier : List Gate) :
    Option (List (List Gate)) :=
  if dFrontier.length = 1 then
    fusVisit c fuel (dFrontier.headD { typ := .AND, inputs := [], output := 0 }) [] []
  else some []

/-- findFaultyInput (fan.go): first input whose raw Value is D or D-bar. -/
def findFaultyInput (c : Circuit) (g : Gate) : Option Nat :=
  g.inputs.find? fun i =>
    (getSignal c i).value = .D || (getSignal c i).value = .D_BAR

/-- calculateGatePriority (fan.go): when the gate output has a driver the
circuit back-pointer is available and a non-empty unique-sensitization
path set adds 10. -/
def calculateGatePriority (fuel : Nat) (c : Circuit) (g : Gate) : Option Int :=
  if (getSignal c g.output).fanIn.isSome then
    match FindUniqueSensitizationPaths fuel c [g] with
    | none => none
    | some paths => some (if paths.length > 0 then (10 : Int) else 0)
  else some 0

/-- types.DFrontierGate (the BlockingInputs field is never populated by
the driver and is dropped). -/
structure DFrontierGate where
  gate : Gate
  faultyInput : Option Nat
  priority : Int
deriving DecidableEq, Repr

/-- convertToDFrontierGates (fan.go). -/
def convertToDFrontierGates (fuel : Nat) (c : Circuit) :
    List Gate → Option (List DFrontierGate)
  | [] => some []
  | g :: rest =>
    match calculateGatePriority fuel c g with
    | none => none
    | some pr =>
      match convertToDFrontierGates fuel c rest with
      | none => none
      | some l =>
        some ({ gate := g, faultyInput := findFaultyInput c g, priority := pr } :: l)

/-! ### The decision stack and the FAN driver (fan.go) -/

/-- types.Decision (the Children, Score and TimeStamp fields carry no
behaviour and are dropped). -/
structure Decision where
  signal : Nat
  value : SignalValue
  alternative : Bool
  level : Nat
deriving DecidableEq, Repr

/-- getOppositeValue (fan.go). -/
def getOppositeValue (v : SignalValue) : SignalValue :=
  match v with
  | .ZERO => .ONE
  | .ONE => .ZERO
  | .D => .D_BAR
  | .D_BAR => .D
  | .X => .X

/-- resetCircuit (fan.go): write X DIRECTLY into every non-primary
signal's Value field. -/
def resetCircuit (c : Circuit) : Circuit :=
  { c with signals := c.signals.map fun s =>
      if s.isPrimary then s else { s with value := .X } }

/-- resetCircuitState (fan.go): SetValue X on every non-primary signal,
then replay the decisions up to the given index through SetValue. -/
def resetCircuitState (c : Circuit) (decisions : List Decision) (upTo : Nat) :
    Circuit :=
  let c1 := { c with signals := c.signals.map fun s =>
      if s.isPrimary then s else s.SetValue .X }
  (decisions.take (upTo + 1)).foldl
    (fun cc d => setSignal cc d.signal fun s => s.SetValue d.value) c1

/-- backtrack (fan.go): flip the last untried decision to its opposite
value and rebuild the state, or pop tried decisions; false when the stack
is exhausted. -/
def backtrackF (dt : List Decision) (c : Circuit) :
    List Decision × Circuit × Bool :=
  match h : dt.getLast? with
  | none => ([], c, false)
  | some last =>
    if !last.alternative then
      let newLast := { last with
        alternative := true
        value := getOppositeValue last.value }
      let dt2 := dt.dropLast ++ [newLast]
      let c2 := resetCircuitState c dt2 (dt2.length - 1)
      let c3 := setSignal c2 newLast.signal fun s => s.SetValue newLast.value
      (dt2, c3, true)
    else backtrackF dt.dropLast c
termination_by dt.length
decreasing_by
  have hne : dt ≠ [] := by
    intro he
    rw [he] at h
    exact Option.noConfusion h
  have hpos : 0 < dt.length := List.length_pos.mpr hne
  simp only [List.length_dropLast]
  omega

/-- saveTestPattern (fan.go): record GetValue of every primary input. -/
def saveTestPattern (c : Circuit) : List (Nat × SignalValue) :=
  c.primaryInputs.map fun i => (i, (getSignal c i).GetValue)

/-- The fields of types.TestResult that the driver writes (statistics that
are never read back and the implication log are reduced to the decision
counters; the Error field is kept verbatim as an option that fan.go never
sets). -/
structure TestResultState where
  success : Bool
  testPattern : List (Nat × SignalValue)
  dFrontier : List DFrontierGate
  decisionLevel : Nat
  decisions : Nat
  errorKind : Option Nat
deriving DecidableEq, Repr

/-- types.NewTestResult. -/
def NewTestResult : TestResultState :=
  { success := false, testPattern := [], dFrontier := [],
    decisionLevel := 0, decisions := 0, errorKind := none }

/-- The loop state of one FAN invocation: the circuit, the decision tree,
and the accumulated result record. -/
structure LoopState where
  c : Circuit
  decisionTree : List Decision
  result : TestResultState
deriving DecidableEq, Repr

/-- handleBacktraceResult objective loop (fan.go lines 262-301): apply the
objective through SetValue, run the types-based Implication, keep the
decision on success; on failure reset the objective signal to X and try
the next objective. -/
def hbrLoop (fuel : Nat) :
    List BacktraceObjective → Circuit → List Decision → Nat → Nat →
    Option (Circuit × List Decision × Nat × Nat × Bool)
  | [], c, dt, level, decisions => some (c, dt, level, decisions, false)
  | obj :: rest, c, dt, level, decisions =>
    let decision : Decision :=
      { signal := obj.signal, value := obj.value, alternative := false,
        level := level + 1 }
    let c2 := setSignal c obj.signal fun s => s.SetValue obj.value
    match Implication fuel c2 obj.signal obj.value with
    | none => none
    | some (c3, success, _) =>
      if success then some (c3, dt ++ [decision], level + 1, decisions + 1, true)
      else hbrLoop fuel rest (setSignal c3 obj.signal fun s => s.SetValue .X)
        dt level decisions

/-- handleBacktraceResult (fan.go). -/
def handleBacktraceResult (fuel : Nat) (btRes : BacktraceResult) (c : Circuit)
    (dt : List Decision) (level decisions : Nat) :
    Option (Circuit × List Decision × Nat × Nat × Bool) :=
  if btRes.finalObjectives.length = 0 then some (c, dt, level, decisions, false)
  else hbrLoop fuel btRes.finalObjectives c dt level decisions

/-- One iteration of the FAN main loop (fan.go lines 26-62): implication,
D-frontier, completion check, objectives, multiple backtrace, decision or
backtrack.  Sum.inl is a continuing state, Sum.inr a returned result;
none means an inner fuel ran out (never the case in the runs below). -/
def fanStep (fuel : Nat) (st : LoopState) : Option (Sum LoopState TestResultState) :=
  match performImplication fuel st.c with
  | none => none
  | some (c1, ok) =>
    if !ok then
      let b := backtrackF st.decisionTree c1
      if b.2.2 then
        some (.inl { c := b.2.1, decisionTree := b.1, result := st.result })
      else some (.inr st.result)
    else
      let dF := findDFrontier c1
      match convertToDFrontierGates fuel c1 dF with
      | none => none
      | some dfg =>
        let res1 := { st.result with dFrontier := dfg }
        if isTestComplete c1 dF then
          some (.inr { res1 with success := true, testPattern := saveTestPattern c1 })
        else
          let objectives := createObjectives c1 dF
          if objectives.length = 0 then
            let b := backtrackF st.decisionTree c1
            if b.2.2 then
              some (.inl { c := b.2.1, decisionTree := b.1, result := res1 })
            else some (.inr res1)
          else
            match MultipleBacktrace fuel objectives c1 NewTestGenerationConfig with
            | none => none
            | some btRes =>
              match handleBacktraceResult fuel btRes c1 st.decisionTree
                  res1.decisionLevel res1.decisions with
              | none => none
              | some (c2, dt2, level2, decisions2, okB) =>
                let res2 := { res1 with
                  decisionLevel := level2
                  decisions := decisions2 }
                if okB then
                  some (.inl { c := c2, decisionTree := dt2, result := res2 })
                else
                  let b := backtrackF dt2 c2
                  if b.2.2 then
                    some (.inl { c := b.2.1, decisionTree := b.1, result := res2 })
                  else some (.inr res2)

/-- The FAN main loop, fuelled by the number of iterations; Sum.inl means
the loop is still running after that many iterations. -/
def fanLoop (fuel : Nat) : Nat → LoopState → Option (Sum LoopState TestResultState)
  | 0, st => some (.inl st)
  | iters + 1, st =>
    match fanStep fuel st with
    | none => none
    | some (.inl st2) => fanLoop fuel iters st2
    | some (.inr res) => some (.inr res)

/-- FAN (fan.go lines 12-65): reset the circuit, write D or D-bar
DIRECTLY into the fault site's Value field (IsFault is never set and
SetFault is never called), and run the loop. -/
def FAN (fuel iters : Nat) (c : Circuit) (faultSite : Nat)
    (faultValue : SignalValue) : Option (Sum LoopState TestResultState) :=
  let c0 := resetCircuit c
  let c1 := setSignal c0 faultSite fun s =>
    { s with value := if faultValue = .ONE then .D_BAR else .D }
  fanLoop fuel iters { c := c1, decisionTree := [], result := NewTestResult }

/-! ### Concrete circuits -/

/-- CreateSimpleCircuit (example_circuits.go, current revision): three
primary inputs, mid1 = AND(in1,in2), mid2 = OR(in3,mid1), out = NOT(mid2)
as the only primary output.  Signal order follows AddPrimaryInput and
AddGate: [in1, in2, in3, out, mid1, mid2].  The builder never assigns
FanIn pointers, leaves every Value field at the Go zero value ZERO, and
IdentifyBoundAndHeadLines marks no head lines here (no multi-fanout
stem). -/
def CreateSimpleCircuit : Circuit :=
  { gates :=
      [{ typ := .AND, inputs := [0, 1], output := 4 },
       { typ := .OR, inputs := [2, 4], output := 5 },
       { typ := .NOT, inputs := [5], output := 3 }]
    signals :=
      [{ newSignal with isPrimary := true, fanouts := [4] },
       { newSignal with isPrimary := true, fanouts := [4] },
       { newSignal with isPrimary := true, fanouts := [5] },
       { newSignal with isPrimary := true },
       { newSignal with fanouts := [5] },
       { newSignal with fanouts := [3] }]
    primaryInputs := [0, 1, 2], primaryOutputs := [3], headLines := [] }

/-- The state FAN builds before its loop for a stuck-at-0 fault at mid1
(signal 4) of the simple circuit: non-primary values reset to X, then D
written directly into the fault site. -/
def c9Injected : Circuit :=
  setSignal (resetCircuit CreateSimpleCircuit) 4 fun s => { s with value := .D }

/-- A circuit on which the FAN loop runs forever: out = AND(a, h, w) is
the only primary output, a is the fault site, w stays unknown, and
h = AND(p, q) is a head line whose decided value 1 is erased again by the
forward evaluation AND(X, X) inside the types-based Implication.  All
values start at X (the caller may hand FAN a circuit in any value
state). -/
def fanLoopCircuit : Circuit :=
  { gates :=
      [{ typ := .AND, inputs := [1, 2], output := 4 },
       { typ := .AND, inputs := [0, 4, 3], output := 5 }]
    signals :=
      [{ newSignal with
         isPrimary := true, fanouts := [5], controllability := 1, value := .X },
       { newSignal with
         isPrimary := true, fanouts := [4], controllability := 1, value := .X },
       { newSignal with
         isPrimary := true, fanouts := [4], controllability := 1, value := .X },
       { newSignal with
         isPrimary := true, fanouts := [5], controllability := 1, value := .X },
       { newSignal with
         isHead := true, fanouts := [5], fanIn := some 0, controllability := 4,
         value := .X },
       { newSignal with
         isPrimary := true, fanIn := some 1, controllability := 6, value := .X }]
    primaryInputs := [0, 1, 2, 3], primaryOutputs := [5], headLines := [4] }

/-- The D-frontier record the driver recomputes in every iteration of the
endless run on fanLoopCircuit. -/
def c8DFG : DFrontierGate :=
  { gate := { typ := .AND, inputs := [0, 4, 3], output := 5 },
    faultyInput := some 0, priority := 10 }

/-- The loop state after k iterations of FAN on fanLoopCircuit with
stuck-at-0 at signal 0: the circuit values never change, while the
decision stack and the counters grow without bound. -/
def c8State (k : Nat) : LoopState :=
  { c := setSignal (resetCircuit fanLoopCircuit) 0 fun s =>
      { s with value := if SignalValue.ZERO = .ONE then .D_BAR else .D }
    decisionTree := (List.range k).map fun i =>
      { signal := 4, value := .ONE, alternative := false, level := i + 1 }
    result :=
      { success := false, testPattern := []
        dFrontier := if k = 0 then [] else [c8DFG]
        decisionLevel := k, decisions := k, errorKind := none } }

/-! ### Two-valued detection check (modelled from the spec) -/

/-- Modelled from the spec: the good-circuit substitution of P4 replaces D
by 0 and D-bar by 1 in the test pattern (the repository has no two-valued
simulator). -/
def substGood (v : SignalValue) : SignalValue :=
  match v with
  | .D => .ZERO
  | .D_BAR => .ONE
  | w => w

/-- Modelled from the spec: the faulty-circuit substitution of P4 replaces
D by 1 and D-bar by 0. -/
def substFaulty (v : SignalValue) : SignalValue :=
  match v with
  | .D => .ONE
  | .D_BAR => .ZERO
  | w => w

/-- Modelled from the spec: an optional forced value at the fault site of
the faulty circuit. -/
def forceAt (forced : Option (Nat × SignalValue)) (i : Nat) (v : SignalValue) :
    SignalValue :=
  match forced with
  | some (fi, fv) => if i = fi then fv else v
  | none => v

/-- Modelled from the spec: one simulation pass evaluating every gate on
the current values (re-forcing the fault site). -/
def simulatePass (forced : Option (Nat × SignalValue)) (c : Circuit) : Circuit :=
  c.gates.foldl
    (fun cc g => setSignal cc g.output fun s =>
      { s with value := forceAt forced g.output (evaluateGate cc g) })
    c

/-- Modelled from the spec: iterate simulation passes (enough passes for
any acyclic circuit). -/
def simulateN : Nat → Option (Nat × SignalValue) → Circuit → Circuit
  | 0, _, c => c
  | n + 1, forced, c => simulateN n forced (simulatePass forced c)

/-- Modelled from the spec: install a substituted test pattern, X
elsewhere, honouring the forced fault site. -/
def applyPattern (c : Circuit) (pattern : List (Nat × SignalValue))
    (subst : SignalValue → SignalValue) (forced : Option (Nat × SignalValue)) :
    Circuit :=
  { c with signals := (List.range c.signals.length).map fun i =>
      let base :=
        match pattern.lookup i with
        | some v => subst v
        | none => SignalValue.X
      { getSignal c i with value := forceAt forced i base } }

/-- Modelled from the spec (P4): the returned pattern detects the fault
iff the good-circuit simulation (D as 0, D-bar as 1) and the
faulty-circuit simulation (D as 1, D-bar as 0, fault site forced to the
stuck value) differ at some primary output. -/
def detectsFault (fuel : Nat) (c : Circuit) (pattern : List (Nat × SignalValue))
    (faultSite : Nat) (stuckVal : SignalValue) : Bool :=
  let good := simulateN fuel none (applyPattern c pattern substGood none)
  let faulty := simulateN fuel (some (faultSite, stuckVal))
    (applyPattern c pattern substFaulty (some (faultSite, stuckVal)))
  c.primaryOutputs.any fun po =>
    (getSignal good po).value ≠ (getSignal faulty po).value

/-- An AND gate (gate index 0) whose output signal 0 holds 0 while input
1 holds 1 and input 2 holds X: the configuration of the claimed
all-but-one backward rule. -/
def c5ANDCircuit : Circuit :=
  { gates := [{ typ := .AND, inputs := [1, 2], output := 0 }]
    signals :=
      [{ newSignal with fanIn := some 0, value := .ZERO },
       { newSignal with isPrimary := true, value := .ONE },
       { newSignal with isPrimary := true, value := .X }]
    primaryInputs := [1, 2], primaryOutputs := [0], headLines := [] }

/-- An OR gate whose output holds 1 while input 1 holds 0 and input 2
holds X: the mirror configuration. -/
def c5ORCircuit : Circuit :=
  { gates := [{ typ := .OR, inputs := [1, 2], output := 0 }]
    signals :=
      [{ newSignal with fanIn := some 0, value := .ONE },
       { newSignal with isPrimary := true, value := .ZERO },
       { newSignal with isPrimary := true, value := .X }]
    primaryInputs := [1, 2], primaryOutputs := [0], headLines := [] }

/-- An AND gate whose output holds 1 with both inputs X: the case the
types-based engine does implement. -/
def c5PosCircuit : Circuit :=
  { gates := [{ typ := .AND, inputs := [1, 2], output := 0 }]
    signals :=
      [{ newSignal with fanIn := some 0, value := .ONE },
       { newSignal with isPrimary := true, value := .X },
       { newSignal with isPrimary := true, value := .X }]
    primaryInputs := [1, 2], primaryOutputs := [0], headLines := [] }

/-! ## Theorems -/

theorem andFlags_loop (vals : List SignalValue) :
    ∀ a b c d : Bool,
      List.foldl andFlagsStep (a, b, c, d) vals =
        (a || vals.contains .X, b || vals.contains .ZERO,
         c || vals.contains .D, d || vals.contains .D_BAR) := by
  induction vals with
  | nil => simp
  | cons v rest ih =>
    intro a b c d
    cases v <;>
      simp [andFlagsStep, ih, List.contains_cons, Bool.or_assoc, Bool.or_comm,
        Bool.or_left_comm]

theorem gateEvaluateANDAux_spec (vals : List SignalValue) :
    ∀ hasX hasD : Bool,
      gateEvaluateANDAux vals hasX hasD =
        (if vals.contains .ZERO || vals.contains .D_BAR then .ZERO
         else if hasX || vals.contains .X then .X
         else if hasD || vals.contains .D then .D
         else .ONE) := by
  induction vals with
  | nil => simp [gateEvaluateANDAux]
  | cons v rest ih =>
    intro hasX hasD
    cases v <;>
      simp [gateEvaluateANDAux, ih, List.contains_cons, Bool.or_assoc,
        Bool.or_comm, Bool.or_left_comm]

/-- C3 (counterexample).  The circuit-package AND evaluator (gate.go
evaluateAND, also Gate.evaluateAND in the older circuit.go) violates the
claimed rule at the claim's own example inputs: with inputs 1 and D-bar it
returns 0 even though the claim requires D-bar, and with inputs D-bar and X
(no 0 present) it returns 0 even though the claim requires X. -/
theorem C3_gate_and_counterexample :
    gateEvaluateAND [.ONE, .D_BAR] = .ZERO ∧ SignalValue.ZERO ≠ SignalValue.D_BAR ∧
      gateEvaluateAND [.D_BAR, .X] = .ZERO ∧ SignalValue.ZERO ≠ SignalValue.X := by
  refine ⟨rfl, by decide, rfl, by decide⟩

/-- C3 (amended).  The algorithm-package evaluator evaluateANDGate follows
the claimed priority rule exactly; the circuit-package evaluator instead
treats D-bar as a controlling zero: it returns 0 if any input is 0 or
D-bar, else X if any input is X, else D if any input is D, else 1 — so an
AND gate whose inputs are all 1 except one D-bar evaluates to 0 (not
D-bar), and an AND gate with inputs D-bar and X evaluates to 0 (not X). -/
theorem C3_and_evaluation_amended (vals : List SignalValue) :
    evaluateANDGate vals = specEvaluateAND vals ∧
      gateEvaluateAND vals = gateSpecAND vals := by
  constructor
  · show evaluateANDGate vals = specEvaluateAND vals
    unfold evaluateANDGate specEvaluateAND andFlags
    rw [andFlags_loop]
    simp
  · show gateEvaluateAND vals = gateSpecAND vals
    unfold gateEvaluateAND gateSpecAND
    rw [gateEvaluateANDAux_spec]
    simp

/-- C4 (code evaluated at the failing input).  A fresh signal set to 1 via
SetValue reads back 1 through GetValue, yet IsCompatible accepts the new
value 0, which the claimed compatibility table rejects for a current value
of 1.  The cause: SetValue writes the Value field while IsCompatible tests
the State.Value field, which stays X; consequently IsCompatible accepts
every pair of values on any signal built by NewSignal and written through
SetValue. -/
theorem C4_compatibility_code_bug :
    (newSignal.SetValue .ONE).GetValue = .ONE ∧
      (newSignal.SetValue .ONE).IsCompatible .ZERO = true ∧
      claimedCompatible .ONE .ZERO = false ∧
      (newSignal.SetValue .ONE).stateValue = .X ∧
      ∀ v w : SignalValue, (newSignal.SetValue v).IsCompatible w = true := by
  refine ⟨rfl, rfl, rfl, rfl, ?_⟩
  intro v w
  cases v <;> cases w <;> rfl


theorem utilsFindDFrontier_eq (c : Circuit) :
    utilsFindDFrontier c = c.gates.filterMap (utilsDFEntry c) := rfl

theorem utilsDFEntry_some (c : Circuit) (g : Gate) (p : Gate × Nat)
    (h : utilsDFEntry c g = some p) :
    p.1 = g ∧ (∃ i ∈ g.inputs, (getSignal c i).IsFaulty = true) ∧
      (getSignal c g.output).IsFaulty = false := by
  unfold utilsDFEntry at h
  cases hf : g.inputs.find? (fun i => (getSignal c i).IsFaulty) with
  | none => rw [hf] at h; exact absurd h (by simp)
  | some fi =>
    rw [hf] at h
    by_cases ho : (getSignal c g.output).IsFaulty = true
    · simp [ho] at h
    · have hfi := List.find?_some hf
      have hmem := List.mem_of_find?_eq_some hf
      simp [ho] at h
      refine ⟨by rw [← h], ⟨fi, hmem, hfi⟩, by simpa using ho⟩

theorem utilsDFEntry_isSome (c : Circuit) (g : Gate)
    (hf : ∃ i ∈ g.inputs, (getSignal c i).IsFaulty = true)
    (ho : (getSignal c g.output).IsFaulty = false) :
    ∃ fi, utilsDFEntry c g = some (g, fi) := by
  unfold utilsDFEntry
  obtain ⟨i, hi, hfi⟩ := hf
  have : (g.inputs.find? (fun i => (getSignal c i).IsFaulty)).isSome := by
    rw [List.find?_isSome]
    exact ⟨i, hi, hfi⟩
  cases hfind : g.inputs.find? (fun i => (getSignal c i).IsFaulty) with
  | none => rw [hfind] at this; simp at this
  | some fi => exact ⟨fi, by simp [ho]⟩

/-- C6 (counterexample).  A two-input AND gate whose inputs hold D and X
and whose output holds 0 is classified as a D-frontier gate by
isDFrontierGate even though its output value is not X; conversely a gate
whose inputs hold D and 1 and whose output is X is not classified even
though the claim requires it to be. -/
theorem C6_dfrontier_counterexample :
    (isDFrontierGate
        { gates := [{ typ := .AND, inputs := [0, 1], output := 2 }]
          signals := [{ newSignal with value := .D }, { newSignal with value := .X },
            { newSignal with value := .ZERO }]
          primaryInputs := [], primaryOutputs := [], headLines := [] }
        { typ := .AND, inputs := [0, 1], output := 2 } = true ∧
      ({ newSignal with value := SignalValue.ZERO } : Signal).value ≠ .X) ∧
    (isDFrontierGate
        { gates := [{ typ := .AND, inputs := [0, 1], output := 2 }]
          signals := [{ newSignal with value := .D }, { newSignal with value := .ONE },
            { newSignal with value := .X }]
          primaryInputs := [], primaryOutputs := [], headLines := [] }
        { typ := .AND, inputs := [0, 1], output := 2 } = false ∧
      ({ newSignal with value := SignalValue.X } : Signal).value = .X ∧
      ({ newSignal with value := SignalValue.D } : Signal).value = .D) := by
  exact ⟨⟨rfl, by decide⟩, rfl, rfl, rfl⟩

/-- C6 (amended).  isDFrontierGate classifies a gate as a D-frontier gate
iff some input value is D or D-bar, some input value is X, and the output
does not read back as D or D-bar (its value may be 0 or 1); the helper.go
FindDFrontier drops the X-input requirement and selects exactly the gates
with a fault-reading input and a non-faulty output. -/
theorem C6_dfrontier_amended (c : Circuit) (g : Gate) :
    (isDFrontierGate c g = true ↔
      ((∃ i ∈ g.inputs,
          (getSignal c i).value = .D ∨ (getSignal c i).value = .D_BAR) ∧
        (∃ i ∈ g.inputs, (getSignal c i).value = .X) ∧
        (getSignal c g.output).IsFaulty = false)) ∧
    (g ∈ (utilsFindDFrontier c).map Prod.fst ↔
      (g ∈ c.gates ∧ (∃ i ∈ g.inputs, (getSignal c i).IsFaulty = true) ∧
        (getSignal c g.output).IsFaulty = false)) := by
  constructor
  · unfold isDFrontierGate
    simp only [List.any_eq_true, Bool.and_eq_true, Bool.not_eq_true',
      Bool.or_eq_true, decide_eq_true_eq]
    exact and_assoc
  · constructor
    · intro h
      rw [utilsFindDFrontier_eq] at h
      simp only [List.mem_map, List.mem_filterMap] at h
      obtain ⟨p, ⟨g0, hg0, hent⟩, hp⟩ := h
      obtain ⟨h1, h2, h3⟩ := utilsDFEntry_some c g0 p hent
      rw [hp] at h1
      subst h1
      exact ⟨hg0, h2, h3⟩
    · rintro ⟨hg, hf, ho⟩
      obtain ⟨fi, hfi⟩ := utilsDFEntry_isSome c g hf ho
      rw [utilsFindDFrontier_eq]
      simp only [List.mem_map, List.mem_filterMap]
      exact ⟨(g, fi), ⟨g, hg, hfi⟩, rfl⟩

/-- C2 (counterexample).  A state in which the D-frontier is empty, no
primary output holds D or D-bar (the only output holds 1), and every
non-primary signal is assigned: isTestComplete reports completion, so the
driver declares success instead of backtracking, refuting the claimed
if-and-only-if. -/
theorem C2_completion_counterexample :
    (isTestComplete
        { gates := []
          signals := [{ newSignal with isPrimary := true, value := .ONE },
            { newSignal with value := .ZERO }]
          primaryInputs := [], primaryOutputs := [0], headLines := [] }
        [] = true) ∧
    (({ gates := []
        signals := [{ newSignal with isPrimary := true, value := .ONE },
          { newSignal with value := .ZERO }]
        primaryInputs := [], primaryOutputs := [0],
        headLines := [] } : Circuit).primaryOutputs.all
      (fun i =>
        !((getSignal
            { gates := []
              signals := [{ newSignal with isPrimary := true, value := .ONE },
                { newSignal with value := .ZERO }]
              primaryInputs := [], primaryOutputs := [0], headLines := [] }
            i).value = .D ||
          (getSignal
            { gates := []
              signals := [{ newSignal with isPrimary := true, value := .ONE },
                { newSignal with value := .ZERO }]
              primaryInputs := [], primaryOutputs := [0], headLines := [] }
            i).value = .D_BAR)) = true) := by
  exact ⟨rfl, rfl⟩

/-- C2 (amended).  The completion check declares success iff some primary
output holds D or D-bar, OR the D-frontier is empty and every non-primary
signal is assigned a value other than X; and in every state where the
D-frontier is empty, no primary output holds D or D-bar, and some
non-primary signal is still X, the completion check is false and the
objective list is empty, so the driver takes the backtrack branch. -/
theorem C2_completion_amended :
    (∀ (c : Circuit) (dF : List Gate),
      isTestComplete c dF = true ↔
        ((∃ i ∈ c.primaryOutputs,
            (getSignal c i).value = .D ∨ (getSignal c i).value = .D_BAR) ∨
          (dF = [] ∧ ∀ s ∈ c.signals, s.isPrimary = false → s.value ≠ .X))) ∧
    (∀ c : Circuit,
      (∀ i ∈ c.primaryOutputs,
        (getSignal c i).value ≠ .D ∧ (getSignal c i).value ≠ .D_BAR) →
      findDFrontier c = [] →
      (∃ s ∈ c.signals, s.isPrimary = false ∧ s.value = .X) →
      isTestComplete c (findDFrontier c) = false ∧
        createObjectives c (findDFrontier c) = []) := by
  have hiff : ∀ (c : Circuit) (dF : List Gate),
      isTestComplete c dF = true ↔
        ((∃ i ∈ c.primaryOutputs,
            (getSignal c i).value = .D ∨ (getSignal c i).value = .D_BAR) ∨
          (dF = [] ∧ ∀ s ∈ c.signals, s.isPrimary = false → s.value ≠ .X)) := by
    intro c dF
    unfold isTestComplete allNecessaryAssignmentsMade
    simp only [Bool.or_eq_true, List.any_eq_true, Bool.and_eq_true,
      Bool.or_eq_true, decide_eq_true_eq, List.all_eq_true,
      List.length_eq_zero, Bool.not_eq_true', Bool.and_eq_false_iff,
      decide_eq_false_iff_not, Bool.not_eq_false]
    constructor
    · rintro (h | ⟨hdF, hall⟩)
      · exact Or.inl h
      · refine Or.inr ⟨hdF, fun s hs hp => ?_⟩
        rcases hall s hs with h1 | h1
        · exact h1
        · rw [hp] at h1; exact absurd h1 (by simp)
    · rintro (h | ⟨hdF, hall⟩)
      · exact Or.inl h
      · refine Or.inr ⟨hdF, fun s hs => ?_⟩
        by_cases hp : s.isPrimary = false
        · exact Or.inl (hall s hs hp)
        · exact Or.inr (by simpa using hp)
  refine ⟨hiff, fun c hout hdF ⟨s, hs, hp, hx⟩ => ⟨?_, by rw [hdF]; rfl⟩⟩
  rw [← Bool.not_eq_true, hiff c (findDFrontier c)]
  push_neg
  refine ⟨fun i hi => ?_, fun _ => ⟨s, hs, hp, hx⟩⟩
  rcases hout i hi with ⟨h1, h2⟩
  tauto

/-- C2 (witness): the amended theorem applied to the concrete dead-end
state, where the driver indeed takes the backtrack branch. -/
theorem C2_completion_witness :
    isTestComplete c2DeadEnd (findDFrontier c2DeadEnd) = false ∧
      createObjectives c2DeadEnd (findDFrontier c2DeadEnd) = [] :=
  C2_completion_amended.2 c2DeadEnd (by decide) rfl
    ⟨{ newSignal with value := .X }, by decide, rfl, rfl⟩


/-! ### Sorting lemmas for sortObjectivesByPriorityAndCost -/

theorem objLess_asymm (a b : BacktraceObjective) (h : objLess a b = true) :
    objLess b a = false := by
  unfold objLess at h ⊢
  split at h <;> split <;> simp_all <;> omega

theorem objLess_false_iff (x y : BacktraceObjective) :
    objLess y x = false ↔
      (x.priority > y.priority ∨ (x.priority = y.priority ∧ x.cost ≤ y.cost)) := by
  unfold objLess
  split <;> rename_i h <;> simp_all <;> omega

theorem insertObjSorted_head (a : BacktraceObjective) (l : List BacktraceObjective) :
    (insertObjSorted a l).head? = some a ∨ (insertObjSorted a l).head? = l.head? := by
  cases l with
  | nil => left; rfl
  | cons b t =>
    unfold insertObjSorted
    cases h : objLess b a
    · left; simp [h]
    · right; simp [h]

theorem chain'_insertObjSorted (a : BacktraceObjective) :
    ∀ l : List BacktraceObjective,
      List.Chain' (fun x y => objLess y x = false) l →
      List.Chain' (fun x y => objLess y x = false) (insertObjSorted a l) := by
  intro l
  induction l with
  | nil => intro _; simp [insertObjSorted]
  | cons b t ih =>
    intro h
    rw [List.chain'_cons'] at h
    unfold insertObjSorted
    cases hba : objLess b a with
    | true =>
      simp only [hba, if_true]
      rw [List.chain'_cons']
      refine ⟨?_, ih h.2⟩
      intro y hy
      rcases insertObjSorted_head a t with hh | hh
      · rw [hh] at hy
        cases hy
        exact objLess_asymm b a hba
      · rw [hh] at hy
        exact h.1 y hy
    | false =>
      simp only [hba, Bool.false_eq_true, if_false]
      rw [List.chain'_cons']
      refine ⟨?_, List.chain'_cons'.mpr h⟩
      intro y hy
      simp only [List.head?_cons, Option.mem_def, Option.some.injEq] at hy
      rw [← hy]
      exact hba

theorem mem_insertObjSorted (x a : BacktraceObjective) :
    ∀ l : List BacktraceObjective,
      (x ∈ insertObjSorted a l ↔ x = a ∨ x ∈ l) := by
  intro l
  induction l with
  | nil => simp [insertObjSorted]
  | cons b t ih =>
    unfold insertObjSorted
    cases h : objLess b a
    · simp only [h, Bool.false_eq_true, if_false, List.mem_cons]
    · simp only [h, if_true, List.mem_cons, ih]
      tauto

theorem chain'_sortObjectives (l : List BacktraceObjective) :
    List.Chain' (fun x y => objLess y x = false)
      (sortObjectivesByPriorityAndCost l) := by
  induction l with
  | nil => simp [sortObjectivesByPriorityAndCost]
  | cons a t ih =>
    have : sortObjectivesByPriorityAndCost (a :: t) =
        insertObjSorted a (sortObjectivesByPriorityAndCost t) := rfl
    rw [this]
    exact chain'_insertObjSorted a _ ih

theorem mem_sortObjectives (x : BacktraceObjective) (l : List BacktraceObjective) :
    x ∈ sortObjectivesByPriorityAndCost l ↔ x ∈ l := by
  induction l with
  | nil => simp [sortObjectivesByPriorityAndCost]
  | cons a t ih =>
    have : sortObjectivesByPriorityAndCost (a :: t) =
        insertObjSorted a (sortObjectivesByPriorityAndCost t) := rfl
    rw [this, mem_insertObjSorted, ih, List.mem_cons]

/-! ### Invariants of the MultipleBacktrace worklist loop -/

/-- Well-formedness of a circuit for the backtrace loop: at least one
signal, and every gate input index in range. -/
def WFCircuit (c : Circuit) : Prop :=
  0 < c.signals.length ∧
    ∀ g ∈ c.gates, ∀ i ∈ g.inputs, i < c.signals.length

theorem getGate_mem_or_default (c : Circuit) (gi : Nat) :
    getGate c gi ∈ c.gates ∨ getGate c gi = { typ := .AND, inputs := [], output := 0 } := by
  unfold getGate
  rcases Nat.lt_or_ge gi c.gates.length with h | h
  · left
    rw [List.getD_eq_getElem _ _ h]
    exact List.getElem_mem h
  · right
    exact List.getD_eq_default _ _ h

theorem headD_zero_mem (l : List Nat) : l.headD 0 = 0 ∨ l.headD 0 ∈ l := by
  cases l with
  | nil => left; rfl
  | cons a t => right; simp

theorem backtraceGateWithCost_signal_lt (c : Circuit) (hwf : WFCircuit c)
    (g : Gate) (hg : g ∈ c.gates ∨ g = { typ := .AND, inputs := [], output := 0 })
    (obj : BacktraceObjective) :
    ∀ o ∈ backtraceGateWithCost c g obj, o.signal < c.signals.length := by
  have hin : ∀ i ∈ g.inputs, i < c.signals.length := by
    rcases hg with hg | hg
    · exact hwf.2 g hg
    · rw [hg]; intro i hi; simp at hi
  have hhead : g.inputs.headD 0 < c.signals.length := by
    rcases headD_zero_mem g.inputs with h | h
    · rw [h]; exact hwf.1
    · exact hin _ h
  intro o ho
  cases g with
  | mk typ inputs output =>
    cases typ <;>
      simp only [backtraceGateWithCost, backtraceANDGateEnhanced,
        backtraceORGateEnhanced, backtraceNOTGateEnhanced, findEasiestToControl,
        List.mem_append, List.mem_map, List.mem_ite_nil_right,
        List.mem_singleton] at ho
    case AND =>
      rcases ho with ⟨_, ho⟩ | ⟨_, ⟨i, hi, ho⟩⟩
      · rw [ho]; exact hhead
      · rw [← ho]; exact hin i hi
    case OR =>
      rcases ho with ⟨_, ho⟩ | ⟨_, ⟨i, hi, ho⟩⟩
      · rw [ho]; exact hhead
      · rw [← ho]; exact hin i hi
    case NOT =>
      rcases ho with ⟨_, ho⟩ | ⟨_, ho⟩ <;> (rw [ho]; exact hhead)

/-- Case analysis of one worklist-loop body step. -/
theorem mbProcessObj_cases (c : Circuit) (st : MBState) (obj : BacktraceObjective) :
    mbProcessObj c st obj = st ∨
      ((mbProcessObj c st obj).processed = obj.signal :: st.processed ∧
        st.processed.contains obj.signal = false ∧
        ((mbProcessObj c st obj).next = st.next ∨
          ∃ gi, (getSignal c obj.signal).fanIn = some gi ∧
            (mbProcessObj c st obj).next =
              st.next ++ backtraceGateWithCost c (getGate c gi) obj) ∧
        ((mbProcessObj c st obj).finals = st.finals ∨
          ((mbProcessObj c st obj).finals = st.finals ++ [obj] ∧
            (getSignal c obj.signal).isHead = true))) := by
  by_cases h1 : st.processed.contains obj.signal = true
  · left
    unfold mbProcessObj
    exact if_pos h1
  · right
    have h1f : st.processed.contains obj.signal = false :=
      Bool.not_eq_true _ |>.mp h1
    by_cases h2 : (getSignal c obj.signal).isHead = true
    · unfold mbProcessObj
      rw [if_neg h1, if_pos h2]
      exact ⟨rfl, h1f, Or.inl rfl, Or.inr ⟨rfl, h2⟩⟩
    · cases hf : (getSignal c obj.signal).fanIn with
      | some gi =>
        unfold mbProcessObj
        rw [if_neg h1, if_neg h2, hf]
        exact ⟨rfl, h1f, Or.inr ⟨gi, rfl, rfl⟩, Or.inl rfl⟩
      | none =>
        unfold mbProcessObj
        rw [if_neg h1, if_neg h2, hf]
        exact ⟨rfl, h1f, Or.inl rfl, Or.inl rfl⟩

/-- The facts about one loop body step needed for termination: processed
set entries stay bounded, no duplicates appear, the next worklist stays
valid, processed only grows, and the next worklist grows only when the
processed set does. -/
theorem mbProcessObj_props (c : Circuit) (hwf : WFCircuit c)
    (st : MBState) (obj : BacktraceObjective)
    (hobj : obj.signal < c.signals.length)
    (hproc : ∀ p ∈ st.processed, p < c.signals.length)
    (hnd : st.processed.Nodup)
    (hnext : ∀ o ∈ st.next, o.signal < c.signals.length) :
    (∀ p ∈ (mbProcessObj c st obj).processed, p < c.signals.length) ∧
      (mbProcessObj c st obj).processed.Nodup ∧
      (∀ o ∈ (mbProcessObj c st obj).next, o.signal < c.signals.length) ∧
      st.processed.length ≤ (mbProcessObj c st obj).processed.length ∧
      ((mbProcessObj c st obj).next.length > st.next.length →
        st.processed.length < (mbProcessObj c st obj).processed.length) := by
  rcases mbProcessObj_cases c st obj with h | ⟨hp, hcont, hnx, _⟩
  · rw [h]
    exact ⟨hproc, hnd, hnext, le_refl _, fun hgt => absurd hgt (by omega)⟩
  · have hnotmem : obj.signal ∉ st.processed := by
      simpa using hcont
    have hbound : ∀ p ∈ (mbProcessObj c st obj).processed, p < c.signals.length := by
      rw [hp]
      intro p hpm
      rcases List.mem_cons.mp hpm with h | h
      · rw [h]; exact hobj
      · exact hproc p h
    have hnd2 : (mbProcessObj c st obj).processed.Nodup := by
      rw [hp]
      exact List.nodup_cons.mpr ⟨hnotmem, hnd⟩
    have hnext2 : ∀ o ∈ (mbProcessObj c st obj).next, o.signal < c.signals.length := by
      rcases hnx with h | ⟨gi, _, h⟩
      · rw [h]; exact hnext
      · rw [h]
        intro o ho
        rcases List.mem_append.mp ho with h | h
        · exact hnext o h
        · exact backtraceGateWithCost_signal_lt c hwf _
            (getGate_mem_or_default c gi) obj o h
    have hlen : (mbProcessObj c st obj).processed.length = st.processed.length + 1 := by
      rw [hp]; rfl
    exact ⟨hbound, hnd2, hnext2, by omega, fun _ => by omega⟩

/-- Lifting the step facts over one whole pass of the worklist. -/
theorem mbIter_props (c : Circuit) (hwf : WFCircuit c) :
    ∀ (cur : List BacktraceObjective) (st : MBState),
      (∀ o ∈ cur, o.signal < c.signals.length) →
      (∀ p ∈ st.processed, p < c.signals.length) →
      st.processed.Nodup →
      (∀ o ∈ st.next, o.signal < c.signals.length) →
      (∀ p ∈ (mbIter c cur st).processed, p < c.signals.length) ∧
        (mbIter c cur st).processed.Nodup ∧
        (∀ o ∈ (mbIter c cur st).next, o.signal < c.signals.length) ∧
        st.processed.length ≤ (mbIter c cur st).processed.length ∧
        ((mbIter c cur st).next.length > st.next.length →
          st.processed.length < (mbIter c cur st).processed.length) := by
  intro cur
  induction cur with
  | nil =>
    intro st _ hproc hnd hnext
    have h : mbIter c [] st = st := rfl
    rw [h]
    exact ⟨hproc, hnd, hnext, le_refl _, fun hgt => absurd hgt (by omega)⟩
  | cons o rest ih =>
    intro st hcur hproc hnd hnext
    have hstep := mbProcessObj_props c hwf st o (hcur o (by simp))
      hproc hnd hnext
    have hrest := ih (mbProcessObj c st o)
      (fun x hx => hcur x (List.mem_cons_of_mem o hx))
      hstep.1 hstep.2.1 hstep.2.2.1
    have heq : mbIter c (o :: rest) st = mbIter c rest (mbProcessObj c st o) := rfl
    rw [heq]
    refine ⟨hrest.1, hrest.2.1, hrest.2.2.1, ?_, ?_⟩
    · calc st.processed.length ≤ (mbProcessObj c st o).processed.length :=
            hstep.2.2.2.1
        _ ≤ _ := hrest.2.2.2.1
    · intro hgt
      have hnl : (mbProcessObj c st o).next.length ≥ st.next.length ∨
          (mbProcessObj c st o).next.length > st.next.length := by
        rcases mbProcessObj_cases c st o with h | ⟨_, _, hnx, _⟩
        · rw [h]; exact Or.inl (le_refl _)
        · rcases hnx with h | ⟨gi, _, h⟩
          · rw [h]; exact Or.inl (le_refl _)
          · rw [h]; left; simp
      rcases Nat.lt_or_ge (mbIter c rest (mbProcessObj c st o)).next.length
          ((mbProcessObj c st o)).next.length with hlt | hge
      · have h1 : (mbProcessObj c st o).next.length > st.next.length := by
          omega
        have := hstep.2.2.2.2 h1
        omega
      · rcases Nat.lt_or_ge st.next.length (mbProcessObj c st o).next.length
            with h1 | h1
        · have := hstep.2.2.2.2 h1
          have := hrest.2.2.2.1
          omega
        · have h2 : (mbIter c rest (mbProcessObj c st o)).next.length >
              (mbProcessObj c st o).next.length := by omega
          have := hrest.2.2.2.2 h2
          have := hstep.2.2.2.1
          omega

theorem nodup_bounded_length (l : List Nat) (n : Nat) (hnd : l.Nodup)
    (hb : ∀ x ∈ l, x < n) : l.length ≤ n := by
  have h1 : l.toFinset.card = l.length := List.toFinset_card_of_nodup hnd
  have h2 : l.toFinset ⊆ Finset.range n := by
    intro x hx
    rw [List.mem_toFinset] at hx
    exact Finset.mem_range.mpr (hb x hx)
  have h3 := Finset.card_le_card h2
  rw [h1, Finset.card_range] at h3
  exact h3

theorem mbLoop_nil (c : Circuit) (fuel : Nat) (st : MBState) :
    mbLoop c fuel [] st = some st := by
  simp [mbLoop]

theorem mbLoop_zero_cons (c : Circuit) (o : BacktraceObjective)
    (rest : List BacktraceObjective) (st : MBState) :
    mbLoop c 0 (o :: rest) st = none := by
  simp [mbLoop]

theorem mbLoop_succ_cons (c : Circuit) (fuel : Nat) (o : BacktraceObjective)
    (rest : List BacktraceObjective) (st : MBState) :
    mbLoop c (fuel + 1) (o :: rest) st =
      mbLoop c fuel (mbIter c (o :: rest) { st with next := [] }).next
        { mbIter c (o :: rest) { st with next := [] } with next := [] } := by
  simp [mbLoop]

/-- The worklist loop reaches its fixed point within one outer iteration
per distinct signal: with fuel |signals| + 1 - |processed| it always
returns a result. -/
theorem mbLoop_isSome (c : Circuit) (hwf : WFCircuit c) :
    ∀ (fuel : Nat) (cur : List BacktraceObjective) (st : MBState),
      (∀ o ∈ cur, o.signal < c.signals.length) →
      (∀ p ∈ st.processed, p < c.signals.length) →
      st.processed.Nodup →
      c.signals.length + 1 ≤ fuel + st.processed.length →
      (mbLoop c fuel cur st).isSome = true := by
  intro fuel
  induction fuel with
  | zero =>
    intro cur st hcur hproc hnd hbound
    cases cur with
    | nil => rw [mbLoop_nil]; rfl
    | cons o rest =>
      exfalso
      have := nodup_bounded_length st.processed c.signals.length hnd hproc
      omega
  | succ fuel ih =>
    intro cur st hcur hproc hnd hbound
    cases cur with
    | nil => rw [mbLoop_nil]; rfl
    | cons o rest =>
      rw [mbLoop_succ_cons]
      have hprops := mbIter_props c hwf (o :: rest) { st with next := [] }
        hcur hproc hnd (fun x hx => absurd hx (List.not_mem_nil x))
      cases hnil : (mbIter c (o :: rest) { st with next := [] }).next with
      | nil => rw [mbLoop_nil]; rfl
      | cons a b =>
        apply ih
        · intro x hx
          apply hprops.2.2.1
          rw [hnil]
          exact hx
        · intro p hp
          exact hprops.1 p hp
        · exact hprops.2.1
        · have hgrow : ({ st with next := [] } : MBState).processed.length <
              (mbIter c (o :: rest) { st with next := [] }).processed.length := by
            apply hprops.2.2.2.2
            rw [hnil]
            simp
          have hrw1 : ({ st with next := [] } : MBState).processed.length =
              st.processed.length := rfl
          have hrw2 : ({ mbIter c (o :: rest) { st with next := [] } with
                next := [] } : MBState).processed.length =
              (mbIter c (o :: rest) { st with next := [] }).processed.length := rfl
          omega

/-- Accumulated final objectives come from the incoming accumulator or
from head-line signals: the step case. -/
theorem mbProcessObj_finals (c : Circuit) (st : MBState) (obj : BacktraceObjective) :
    ∀ o ∈ (mbProcessObj c st obj).finals,
      o ∈ st.finals ∨ (getSignal c o.signal).isHead = true := by
  rcases mbProcessObj_cases c st obj with h | ⟨_, _, _, hfin⟩
  · rw [h]; exact fun o ho => Or.inl ho
  · rcases hfin with h | ⟨h, hhead⟩
    · rw [h]; exact fun o ho => Or.inl ho
    · rw [h]
      intro o ho
      rcases List.mem_append.mp ho with hm | hm
      · exact Or.inl hm
      · have : o = obj := by simpa using hm
        rw [this]
        exact Or.inr hhead

/-- Accumulated final objectives come from the incoming accumulator or
from head-line signals: one whole pass. -/
theorem mbIter_finals (c : Circuit) :
    ∀ (cur : List BacktraceObjective) (st : MBState),
      ∀ o ∈ (mbIter c cur st).finals,
        o ∈ st.finals ∨ (getSignal c o.signal).isHead = true := by
  intro cur
  induction cur with
  | nil =>
    intro st o ho
    exact Or.inl ho
  | cons x rest ih =>
    intro st o ho
    have heq : mbIter c (x :: rest) st = mbIter c rest (mbProcessObj c st x) := rfl
    rw [heq] at ho
    rcases ih (mbProcessObj c st x) o ho with h | h
    · exact mbProcessObj_finals c st x o h
    · exact Or.inr h

/-- Accumulated final objectives come from the incoming accumulator or
from head-line signals: the whole loop. -/
theorem mbLoop_finals (c : Circuit) :
    ∀ (fuel : Nat) (cur : List BacktraceObjective) (st st2 : MBState),
      mbLoop c fuel cur st = some st2 →
      ∀ o ∈ st2.finals, o ∈ st.finals ∨ (getSignal c o.signal).isHead = true := by
  intro fuel
  induction fuel with
  | zero =>
    intro cur st st2 h
    cases cur with
    | nil =>
      rw [mbLoop_nil] at h
      rw [← Option.some.inj h]
      exact fun o ho => Or.inl ho
    | cons o rest =>
      rw [mbLoop_zero_cons] at h
      exact absurd h (by simp)
  | succ fuel ih =>
    intro cur st st2 h
    cases cur with
    | nil =>
      rw [mbLoop_nil] at h
      rw [← Option.some.inj h]
      exact fun o ho => Or.inl ho
    | cons x rest =>
      rw [mbLoop_succ_cons] at h
      intro o ho
      rcases ih _ _ _ h o ho with hm | hm
      · rcases mbIter_finals c (x :: rest) { st with next := [] } o hm with hm2 | hm2
        · exact Or.inl hm2
        · exact Or.inr hm2
      · exact Or.inr hm

/-- C10.  The MultipleBacktrace worklist loop terminates on every finite
well-formed circuit: each signal index enters the processed set at most
once, descent only moves from a gate output to that gate's inputs (which
stay in range), and an iteration whose objectives are all already
processed produces an empty next worklist; hence fuel of one outer
iteration per signal plus one always suffices for the loop to reach its
fixed point and return. -/
theorem C10_multiple_backtrace_terminates (c : Circuit)
    (objs : List BacktraceObjective) (hwf : WFCircuit c)
    (hobjs : ∀ o ∈ objs, o.signal < c.signals.length) :
    ∃ st, mbLoop c (c.signals.length + 1) objs
        { processed := [], next := [], finals := [], heads := [], count := 0 } =
      some st := by
  have h := mbLoop_isSome c hwf (c.signals.length + 1) objs
    { processed := [], next := [], finals := [], heads := [], count := 0 }
    hobjs (fun p hp => absurd hp (List.not_mem_nil p)) List.nodup_nil
    (by simp)
  exact Option.isSome_iff_exists.mp h

/-- C10 (witness): the termination theorem applied to the one-signal
circuit with a concrete initial objective. -/
theorem C10_multiple_backtrace_terminates_witness :
    ∃ st, mbLoop loneInputCircuit (loneInputCircuit.signals.length + 1)
        [loneInputObjective]
        { processed := [], next := [], finals := [], heads := [], count := 0 } =
      some st :=
  C10_multiple_backtrace_terminates loneInputCircuit [loneInputObjective]
    (by constructor <;> decide) (by decide)

/-- C7 (counterexample).  A single objective on a primary input that has no
driving gate and is not a head line: MultipleBacktrace pulls it from the
worklist and drops it, returning an empty final-objective list, although
the claim requires the objective to be emitted as a final objective. -/
theorem C7_driverless_objective_counterexample :
    MultipleBacktrace 2 [loneInputObjective] loneInputCircuit
        NewTestGenerationConfig =
      some { finalObjectives := [], headLines := [], backtraceCount := 1 } ∧
    (getSignal loneInputCircuit loneInputObjective.signal).fanIn = none ∧
    (getSignal loneInputCircuit loneInputObjective.signal).isHead = false := by
  exact ⟨rfl, rfl, rfl⟩

/-- C7 (amended).  Whenever the unique-sensitization entry branch does not
fire, every final objective returned by MultipleBacktrace is attached to a
head line (an objective whose signal has no driver and is not a head line
is dropped, not emitted), and the returned list is ordered by priority
descending, then cost ascending. -/
theorem C7_backtrace_finals_amended (fuel : Nat)
    (objs : List BacktraceObjective) (c : Circuit)
    (config : TestGenerationConfig) (res : BacktraceResult)
    (hbranch : ¬(config.useDynamicBacktrace = true ∧ objs.length = 1 ∧
      (getSignal c (objs.headD defaultObjective).signal).IsFaulty = true))
    (hres : MultipleBacktrace fuel objs c config = some res) :
    (∀ o ∈ res.finalObjectives, (getSignal c o.signal).isHead = true) ∧
      List.Chain'
        (fun a b => a.priority > b.priority ∨
          (a.priority = b.priority ∧ a.cost ≤ b.cost))
        res.finalObjectives := by
  have hcond : (config.useDynamicBacktrace && decide (objs.length = 1) &&
      (getSignal c (objs.headD defaultObjective).signal).IsFaulty) = false := by
    by_contra hne
    rw [Bool.not_eq_false, Bool.and_eq_true, Bool.and_eq_true,
      decide_eq_true_eq] at hne
    exact hbranch ⟨hne.1.1, hne.1.2, hne.2⟩
  unfold MultipleBacktrace at hres
  rw [hcond] at hres
  simp only [Bool.false_eq_true, if_false] at hres
  cases hmb : mbLoop c fuel objs
      { processed := [], next := [], finals := [], heads := [], count := 0 } with
  | none => rw [hmb] at hres; exact absurd hres (by simp)
  | some st =>
    rw [hmb] at hres
    simp only [Option.some.injEq] at hres
    have hfin : res.finalObjectives = sortObjectivesByPriorityAndCost st.finals := by
      rw [← hres]
    constructor
    · intro o ho
      rw [hfin] at ho
      rw [mem_sortObjectives] at ho
      rcases mbLoop_finals c fuel objs _ st hmb o ho with hm | hm
      · exact absurd hm (List.not_mem_nil o)
      · exact hm
    · rw [hfin]
      have hch := chain'_sortObjectives st.finals
      exact List.Chain'.imp (fun a b hab => (objLess_false_iff a b).mp hab) hch

/-- C7 (witness): the amended theorem applied to the head-line circuit,
where the single objective is emitted on a head line. -/
theorem C7_backtrace_finals_witness :
    (∀ o ∈ ({ finalObjectives := [headLineObjective]
              headLines := [2]
              backtraceCount := 1 } : BacktraceResult).finalObjectives,
      (getSignal headLineCircuit o.signal).isHead = true) ∧
      List.Chain'
        (fun a b => a.priority > b.priority ∨
          (a.priority = b.priority ∧ a.cost ≤ b.cost))
        ({ finalObjectives := [headLineObjective]
           headLines := [2]
           backtraceCount := 1 } : BacktraceResult).finalObjectives :=
  C7_backtrace_finals_amended 4 [headLineObjective] headLineCircuit
    NewTestGenerationConfig _ (by decide) rfl

/-- C5 (code evaluated at the failing input).  For an AND gate with
output 0, one input at 1 and the remaining input at X, the types-based
backward implication (the engine the fan.go driver calls) derives
nothing, and the older utils-based rule also derives nothing because its
GetUnassignedInputs tests the stale State.Value field and so counts both
inputs as unknown; the mirror OR case behaves the same.  The engine is
not inert: for an AND output of 1 it does queue 1 for every unknown
input. -/
theorem C5_backward_implication_code_bug :
    typesBackwardImplicate c5ANDCircuit 0 = some [] ∧
      utilsBackwardImplicateAND c5ANDCircuit (getGate c5ANDCircuit 0) = some [] ∧
      typesBackwardImplicate c5ORCircuit 0 = some [] ∧
      utilsBackwardImplicateOR c5ORCircuit (getGate c5ORCircuit 0) = some [] ∧
      typesBackwardImplicate c5PosCircuit 0 = some [(1, .ONE), (2, .ONE)] := by
  exact ⟨rfl, rfl, rfl, rfl, rfl⟩

/-- C9 (code evaluated at the failing input).  Injecting stuck-at-0 at
the internal signal mid1 of the simple circuit writes D into its Value
field, but the very first performImplication pass recomputes mid1 from
its AND gate over the primary inputs (both 0 by builder default) and
overwrites the fault site with 0: the injected fault effect is erased,
because FAN never sets IsFault and performImplication writes the Value
field directly. -/
theorem C9_fault_site_overwritten :
    (getSignal c9Injected 4).value = .D ∧
      ∃ p : Circuit × Bool, performImplication 10 c9Injected = some p ∧
        p.2 = true ∧ (getSignal p.1 4).value = .ZERO := by
  exact ⟨by decide, ⟨(performImplication 10 c9Injected).get (by decide),
    (Option.some_get _).symm, by decide, by decide⟩⟩

/-- C1 (code evaluated at the failing input).  On the repository's own
simple example circuit with stuck-at-0 at primary input in1 (the
TestSimpleFaultDetection scenario), FAN reports success with the pattern
in1 = D, in2 = 0, in3 = 0, yet the good-circuit and faulty-circuit
simulations of that pattern agree on the only primary output (in2 = 0
already blocks the AND gate), so the returned pattern does not detect the
fault: a success report for an undetected fault. -/
theorem C1_success_without_detection :
    ∃ res : TestResultState,
      FAN 30 5 CreateSimpleCircuit 0 .ZERO = some (.inr res) ∧
        res.success = true ∧
        res.testPattern = [(0, .D), (1, .ZERO), (2, .ZERO)] ∧
        detectsFault 10 CreateSimpleCircuit res.testPattern 0 .ZERO = false := by
  refine ⟨{ success := true
            testPattern := [(0, .D), (1, .ZERO), (2, .ZERO)]
            dFrontier := []
            decisionLevel := 0
            decisions := 0
            errorKind := none }, by decide, rfl, rfl, by decide⟩

/-- One iteration of the endless FAN run on fanLoopCircuit: the circuit
values are unchanged while the decision stack, the decision level and the
decision counter each grow by one; no error is ever produced. -/
theorem c8_step (dt : List Decision) (res : TestResultState) :
    fanStep 30 { c := (c8State 0).c, decisionTree := dt, result := res } =
      some (.inl
        { c := (c8State 0).c
          decisionTree := dt ++
            [{ signal := 4, value := .ONE, alternative := false,
               level := res.decisionLevel + 1 }]
          result := { res with
            dFrontier := [c8DFG]
            decisionLevel := res.decisionLevel + 1
            decisions := res.decisions + 1 } }) := by
  have h1 : performImplication 30 (c8State 0).c = some ((c8State 0).c, true) := by
    decide
  have h2 : findDFrontier (c8State 0).c =
      [{ typ := .AND, inputs := [0, 4, 3], output := 5 }] := by decide
  have h3 : convertToDFrontierGates 30 (c8State 0).c
      [{ typ := .AND, inputs := [0, 4, 3], output := 5 }] = some [c8DFG] := by decide
  have h4 : isTestComplete (c8State 0).c
      [{ typ := .AND, inputs := [0, 4, 3], output := 5 }] = false := by decide
  have h5 : createObjectives (c8State 0).c
      [{ typ := .AND, inputs := [0, 4, 3], output := 5 }] =
      [{ signal := 5, value := .ONE, zeroCount := 0, oneCount := 1, priority := 10,
         cost := 0 }] := by decide
  have h6 : MultipleBacktrace 30
      [{ signal := 5, value := .ONE, zeroCount := 0, oneCount := 1, priority := 10,
         cost := 0 }]
      (c8State 0).c NewTestGenerationConfig =
      some
        { finalObjectives :=
            [{ signal := 4
               value := .ONE
               zeroCount := 0
               oneCount := 1
               priority := 5
               cost := 8 }]
          headLines := [4]
          backtraceCount := 4 } := by decide
  have h7 : Implication 30 (setSignal (c8State 0).c 4 fun s => s.SetValue .ONE)
      4 .ONE =
      some ((c8State 0).c, true, [(4, .ONE), (1, .ONE), (2, .ONE), (4, .X)]) := by
    decide
  simp only [fanStep]
  rw [h1]
  simp only [Bool.not_true, Bool.false_eq_true, if_false]
  rw [h2, h3]
  simp only []
  rw [h4]
  simp only [Bool.false_eq_true, if_false]
  rw [h5]
  simp only [List.length_cons, List.length_nil]
  rw [h6]
  simp only [handleBacktraceResult, hbrLoop]
  rw [h7]
  simp only [if_true]
  rfl

/-- Unfolding step of the FAN main loop when one iteration keeps the loop
running. -/
theorem fanLoop_succ (fuel k : Nat) (st st2 : LoopState)
    (h : fanStep fuel st = some (.inl st2)) :
    fanLoop fuel (k + 1) st = fanLoop fuel k st2 := by
  simp only [fanLoop]
  rw [h]

/-- After each further iteration on fanLoopCircuit the loop state advances
from c8State j to c8State (j+1). -/
theorem c8_run (k : Nat) :
    ∀ j, fanLoop 30 k (c8State j) = some (.inl (c8State (j + k))) := by
  induction k with
  | zero =>
    intro j
    simp [fanLoop]
  | succ k ih =>
    intro j
    have hstate : c8State (j + 1) =
        { c := (c8State 0).c
          decisionTree := (c8State j).decisionTree ++
            [{ signal := 4, value := .ONE, alternative := false,
               level := (c8State j).result.decisionLevel + 1 }]
          result := { (c8State j).result with
            dFrontier := [c8DFG]
            decisionLevel := (c8State j).result.decisionLevel + 1
            decisions := (c8State j).result.decisions + 1 } } := by
      simp [c8State, List.range_succ]
    have hstep : fanStep 30 (c8State j) = some (.inl (c8State (j + 1))) := by
      rw [hstate]
      exact c8_step (c8State j).decisionTree (c8State j).result
    rw [fanLoop_succ 30 k (c8State j) (c8State (j + 1)) hstep, ih (j + 1)]
    have harith : j + 1 + k = j + (k + 1) := by omega
    rw [harith]

/-- C8 (code evaluated at the failing input).  On fanLoopCircuit with
stuck-at-0 at signal 0, the FAN loop never terminates: after k
iterations, for every k, it is still running with k decisions taken, so
after 1001 iterations the decision count 1001 exceeds the configured
default max_decisions = 1000 and the run neither terminates nor returns
any resource-exhaustion error (the driver never reads the limits and
never writes the Error field, which stays none forever). -/
theorem C8_no_budget_enforcement :
    (∀ k, FAN 30 k fanLoopCircuit 0 .ZERO = some (.inl (c8State k))) ∧
      (c8State 1001).result.decisions = 1001 ∧
      NewTestGenerationConfig.maxDecisions = 1000 ∧
      (∀ k, (c8State k).result.errorKind = none) := by
  refine ⟨fun k => ?_, rfl, rfl, fun k => rfl⟩
  have h0 : FAN 30 k fanLoopCircuit 0 .ZERO = fanLoop 30 k (c8State 0) := rfl
  rw [h0, c8_run k 0]
  have : 0 + k = k := by omega
  rw [this]

end FANCheck
